import Mathlib

/-!
Shallow embedding of the T-Shirt Showdown backend (src/server.js).

The server keeps two process-wide maps — `rooms` (room code to Room
aggregate) and `players` (socket id to directory entry) — plus the
socket.io channel membership per room code, and per-`startGame`
countdown interval timers.  Each socket event handler is embedded as a
pure function from the server state (and the event's inputs, with the
random room code and wall-clock timestamp passed in as parameters) to
the new state together with the list of emitted events, each emission
carrying the recipient socket ids (`socket.emit` targets only the
sender; `io.to(code).emit` targets every socket currently in the
channel for `code`; a socket enters a channel by `socket.join` and
socket.io removes it from all channels when it disconnects, before the
`disconnect` handler's own emits go out).
-/

/-- A roster entry of a room: `{ id, name, isHost }` as built in the
`createRoom` / `joinRoom` handlers. -/
structure Player where
  id : String
  name : String
  isHost : Bool
deriving DecidableEq, Repr

/-- A submitted drawing or slogan: `{ playerId, payload, timestamp }`. -/
structure Submission where
  playerId : String
  payload : String
  timestamp : Nat
deriving DecidableEq, Repr

/-- The Room aggregate stored in the `rooms` map. -/
structure Room where
  code : String
  host : String
  players : List Player
  gameState : String
  drawings : List Submission
  slogans : List Submission
deriving DecidableEq, Repr

/-- A `players` directory entry: `{ ...player, roomCode }`. -/
structure DirEntry where
  id : String
  name : String
  isHost : Bool
  roomCode : String
deriving DecidableEq, Repr

/-- One armed `setInterval` countdown created by `startGame`: the room
code captured by the closure and the current `countdown` variable. -/
structure CountdownTimer where
  roomCode : String
  countdown : Int
deriving DecidableEq, Repr

/-- Payloads of the outbound socket events. -/
inductive GameEvent
  | roomCreated (roomCode playerId : String)
  | roomJoined (roomCode : String) (roster : List Player) (playerId : String)
  | playerJoined (p : Player)
  | errorMsg (msg : String)
  | gameStarting (countdown : Int)
  | countdownUpdate (countdown : Int)
  | phaseUpdate (phase : String) (timer : Nat)
  | drawingReceived (playerName : String) (total : Nat)
  | sloganReceived (playerName : String) (total : Nat)
  | chatMessage (playerName msg time : String)
  | newHost (p : Player)
  | playerLeft (playerId : String)
deriving DecidableEq, Repr

/-- One emission: the socket ids it is delivered to, and the event. -/
structure Emit where
  recipients : List String
  event : GameEvent
deriving DecidableEq, Repr

/-- The whole in-memory server state. -/
structure ServerState where
  rooms : String → Option Room
  players : String → Option DirEntry
  channels : String → List String
  timers : List CountdownTimer

/-- Empty server state at process start. -/
def initState : ServerState where
  rooms := fun _ => none
  players := fun _ => none
  channels := fun _ => []
  timers := []

/-- `socket.on('createRoom')`: the generated room code is a parameter
(the generator draws it at random and never checks uniqueness). -/
def handleCreateRoom (s : ServerState) (sid playerName code : String) :
    ServerState × List Emit :=
  let player : Player := { id := sid, name := playerName, isHost := true }
  let room : Room :=
    { code := code, host := sid, players := [player],
      gameState := "waiting", drawings := [], slogans := [] }
  ({ s with
      rooms := fun c => if c = code then some room else s.rooms c,
      players := fun p =>
        if p = sid then
          some { id := sid, name := playerName, isHost := true, roomCode := code }
        else s.players p,
      channels := fun c =>
        if c = code then s.channels c ++ [sid] else s.channels c },
   [⟨[sid], .roomCreated code sid⟩])

/-- `socket.on('joinRoom')`. -/
def handleJoinRoom (s : ServerState) (sid roomCode playerName : String) :
    ServerState × List Emit :=
  match s.rooms roomCode with
  | none => (s, [⟨[sid], .errorMsg "Sala não encontrada!"⟩])
  | some room =>
    if 8 ≤ room.players.length then
      (s, [⟨[sid], .errorMsg "Sala cheia! Máximo 8 jogadores."⟩])
    else
      let player : Player := { id := sid, name := playerName, isHost := false }
      let room' : Room := { room with players := room.players ++ [player] }
      let s1 : ServerState :=
        { s with
            rooms := fun c => if c = roomCode then some room' else s.rooms c,
            players := fun p =>
              if p = sid then
                some { id := sid, name := playerName, isHost := false,
                       roomCode := roomCode }
              else s.players p,
            channels := fun c =>
              if c = roomCode then s.channels c ++ [sid] else s.channels c }
      (s1,
       [⟨[sid], .roomJoined roomCode room'.players sid⟩,
        ⟨s1.channels roomCode, .playerJoined player⟩])

/-- `socket.on('startGame')`: on success sets `gameState` to
`"drawing"`, emits `gameStarting{3}` to the channel and arms a
countdown interval starting at 3. -/
def handleStartGame (s : ServerState) (sid roomCode : String) :
    ServerState × List Emit :=
  match s.rooms roomCode with
  | none => (s, [])
  | some room =>
    if room.host ≠ sid then (s, [])
    else if room.players.length < 2 then
      (s, [⟨[sid], .errorMsg "Mínimo 2 jogadores!"⟩])
    else
      let room' : Room := { room with gameState := "drawing" }
      ({ s with
          rooms := fun c => if c = roomCode then some room' else s.rooms c,
          timers := s.timers ++ [⟨roomCode, 3⟩] },
       [⟨s.channels roomCode, .gameStarting 3⟩])

/-- One firing of the `setInterval` callback of the timer at index `i`:
decrement `countdown`, emit `countdownUpdate{countdown}`; once the
counter is ≤ 0, clear the interval and emit `phaseUpdate{drawing,90}`. -/
def tickTimer (s : ServerState) (i : Nat) : ServerState × List Emit :=
  match s.timers.get? i with
  | none => (s, [])
  | some t =>
    let c : Int := t.countdown - 1
    if c ≤ 0 then
      ({ s with timers := s.timers.eraseIdx i },
       [⟨s.channels t.roomCode, .countdownUpdate c⟩,
        ⟨s.channels t.roomCode, .phaseUpdate "drawing" 90⟩])
    else
      ({ s with timers := s.timers.set i ⟨t.roomCode, c⟩ },
       [⟨s.channels t.roomCode, .countdownUpdate c⟩])

/-- `socket.on('submitDrawing')`; `Date.now()` is the `now` parameter. -/
def handleSubmitDrawing (s : ServerState) (sid payload : String) (now : Nat) :
    ServerState × List Emit :=
  match s.players sid with
  | none => (s, [])
  | some entry =>
    match s.rooms entry.roomCode with
    | none => (s, [])
    | some room =>
      let room' : Room :=
        { room with drawings := room.drawings ++ [⟨sid, payload, now⟩] }
      ({ s with
          rooms := fun c => if c = entry.roomCode then some room' else s.rooms c },
       [⟨s.channels room.code, .drawingReceived entry.name room'.drawings.length⟩])

/-- `socket.on('submitSlogan')`. -/
def handleSubmitSlogan (s : ServerState) (sid payload : String) (now : Nat) :
    ServerState × List Emit :=
  match s.players sid with
  | none => (s, [])
  | some entry =>
    match s.rooms entry.roomCode with
    | none => (s, [])
    | some room =>
      let room' : Room :=
        { room with slogans := room.slogans ++ [⟨sid, payload, now⟩] }
      ({ s with
          rooms := fun c => if c = entry.roomCode then some room' else s.rooms c },
       [⟨s.channels room.code, .sloganReceived entry.name room'.slogans.length⟩])

/-- `socket.on('disconnect')`: socket.io first removes the socket from
every channel, then the handler filters the roster, promotes a new host
if needed, deletes the room if the roster emptied, and deletes the
directory entry. -/
def handleDisconnect (s : ServerState) (sid : String) : ServerState × List Emit :=
  match s.players sid with
  | none => (s, [])
  | some entry =>
    let chans : String → List String :=
      fun c => (s.channels c).filter (fun x => x != sid)
    match s.rooms entry.roomCode with
    | none =>
      ({ s with
          channels := chans,
          players := fun p => if p = sid then none else s.players p }, [])
    | some room =>
      let remaining := room.players.filter (fun p => p.id != sid)
      let promo : Room × List Emit :=
        if room.host = sid then
          match remaining with
          | [] => ({ room with players := [] }, [])
          | p :: rest =>
            ({ room with
                players := ({ p with isHost := true }) :: rest,
                host := p.id },
             [⟨chans room.code, .newHost { p with isHost := true }⟩])
        else ({ room with players := remaining }, [])
      let room1 := promo.1
      let roomsUpd : String → Option Room :=
        fun c => if c = entry.roomCode then some room1 else s.rooms c
      if room1.players.isEmpty then
        ({ s with
            rooms := fun c => if c = room.code then none else roomsUpd c,
            players := fun p => if p = sid then none else s.players p,
            channels := chans },
         promo.2)
      else
        ({ s with
            rooms := roomsUpd,
            players := fun p => if p = sid then none else s.players p,
            channels := chans },
         promo.2 ++ [⟨chans room.code, .playerLeft sid⟩])

/-- One atomic step of the single-threaded event loop: any inbound
event from any socket, or one firing of an armed interval. -/
inductive Step : ServerState → ServerState → Prop
  | createRoom (s : ServerState) (sid name code : String) :
      Step s (handleCreateRoom s sid name code).1
  | joinRoom (s : ServerState) (sid code name : String) :
      Step s (handleJoinRoom s sid code name).1
  | startGame (s : ServerState) (sid code : String) :
      Step s (handleStartGame s sid code).1
  | submitDrawing (s : ServerState) (sid payload : String) (now : Nat) :
      Step s (handleSubmitDrawing s sid payload now).1
  | submitSlogan (s : ServerState) (sid payload : String) (now : Nat) :
      Step s (handleSubmitSlogan s sid payload now).1
  | disconnect (s : ServerState) (sid : String) :
      Step s (handleDisconnect s sid).1
  | tick (s : ServerState) (i : Nat) :
      Step s (tickTimer s i).1

/-- States reachable from process start by any event sequence. -/
def Reachable (s : ServerState) : Prop :=
  Relation.ReflTransGen Step initState s

/-- Event payloads of an emission list (recipients dropped). -/
def emitEvents (es : List Emit) : List GameEvent :=
  es.map Emit.event

/-- The countdown values carried by the `countdownUpdate` events of a list. -/
def countdownValues (es : List GameEvent) : List Int :=
  es.filterMap (fun e => match e with | .countdownUpdate c => some c | _ => none)

/-- Fire the index-0 interval repeatedly (fuel-bounded) until no timer
is armed; returns the final state and everything emitted on the way. -/
def drainRun : Nat → ServerState → ServerState × List Emit
  | 0, s => (s, [])
  | n + 1, s =>
    match s.timers with
    | [] => (s, [])
    | _ :: _ =>
      let r := tickTimer s 0
      let r2 := drainRun n r.1
      (r2.1, r.2 ++ r2.2)

/-! ### Concrete scenario states used by counterexamples and witnesses -/

/-- State after `h` ("Alice") creates room `ABCDEF`. -/
def sCreate : ServerState := (handleCreateRoom initState "h" "Alice" "ABCDEF").1

/-- State after `q` ("Bob") then joins room `ABCDEF`. -/
def sJoined : ServerState := (handleJoinRoom sCreate "q" "ABCDEF" "Bob").1

/-- The room aggregate of `ABCDEF` in `sJoined`. -/
def roomAfterJoin : Room :=
  { code := "ABCDEF", host := "h",
    players := [{ id := "h", name := "Alice", isHost := true },
                { id := "q", name := "Bob", isHost := false }],
    gameState := "waiting", drawings := [], slogans := [] }

example : sJoined.rooms "ABCDEF" = some roomAfterJoin := rfl
example : sJoined.players "q" =
    some { id := "q", name := "Bob", isHost := false, roomCode := "ABCDEF" } := rfl
example : sJoined.channels "ABCDEF" = ["h", "q"] := rfl

/-- The room aggregate of `ABCDEF` in `sCreate`. -/
def roomAfterCreate : Room :=
  { code := "ABCDEF", host := "h",
    players := [{ id := "h", name := "Alice", isHost := true }],
    gameState := "waiting", drawings := [], slogans := [] }

example : sCreate.rooms "ABCDEF" = some roomAfterCreate := rfl

/-- State after the host of `ABCDEF` runs a successful `startGame`. -/
def sStarted : ServerState := (handleStartGame sJoined "h" "ABCDEF").1

/-- State after the host `h` disconnects mid-countdown. -/
def sD1 : ServerState := (handleDisconnect sStarted "h").1

/-- State after `q`, the last member, also disconnects: the room is
destroyed while the countdown interval is still armed. -/
def sDestroyed : ServerState := (handleDisconnect sD1 "q").1

/-- State after the host `h` of the two-player room disconnects (no
game started): `q` is promoted to host. -/
def c2State : ServerState := (handleDisconnect sJoined "h").1

/-- Seven further sessions join `ABCDEF`, filling it to 8 players. -/
def s8 : ServerState :=
  ["p2", "p3", "p4", "p5", "p6", "p7", "p8"].foldl
    (fun st pid => (handleJoinRoom st pid "ABCDEF" pid).1) sCreate

/-- The full 8-player room aggregate of `ABCDEF` in `s8`. -/
def room8 : Room :=
  { code := "ABCDEF", host := "h",
    players := [{ id := "h", name := "Alice", isHost := true },
                { id := "p2", name := "p2", isHost := false },
                { id := "p3", name := "p3", isHost := false },
                { id := "p4", name := "p4", isHost := false },
                { id := "p5", name := "p5", isHost := false },
                { id := "p6", name := "p6", isHost := false },
                { id := "p7", name := "p7", isHost := false },
                { id := "p8", name := "p8", isHost := false }],
    gameState := "waiting", drawings := [], slogans := [] }

example : s8.rooms "ABCDEF" = some room8 := rfl

/-- A second room `BBBBBB` created by `w` next to the scenario room. -/
def sTwoRooms : ServerState := (handleCreateRoom sJoined "w" "Wil" "BBBBBB").1

/-- The room aggregate of `BBBBBB` in `sTwoRooms`. -/
def roomB : Room :=
  { code := "BBBBBB", host := "w",
    players := [{ id := "w", name := "Wil", isHost := true }],
    gameState := "waiting", drawings := [], slogans := [] }

example : sTwoRooms.rooms "BBBBBB" = some roomB := rfl

/-- Full emission trace of the scenario `startGame` invocation: the
handler's own emits followed by every interval firing. -/
def c1Trace : List GameEvent :=
  emitEvents ((handleStartGame sJoined "h" "ABCDEF").2 ++ (drainRun 5 sStarted).2)

/-! ## C1 — countdown sequence of a successful startGame -/

/-- C1 (counterexample): in the concrete create/join/start scenario the
three `countdownUpdate` events carry `2, 1, 0`, not `3, 2, 1` as the
claim states. -/
theorem c1_counterexample :
    countdownValues c1Trace = [2, 1, 0] ∧ countdownValues c1Trace ≠ [3, 2, 1] := by
  decide

/-- C1 (amended): for every successful `startGame` (room exists,
requester is host, roster ≥ 2; no other timer armed), the emitted
sequence is `gameStarting{3}`, then exactly three `countdownUpdate`
events carrying `2, 1, 0` in that order, then exactly one
`phaseUpdate{drawing, 90}`, after which the interval is cleared. -/
theorem c1_countdown_sequence (s : ServerState) (sid code : String) (room : Room)
    (hroom : s.rooms code = some room) (hhost : room.host = sid)
    (hlen : 2 ≤ room.players.length) (ht : s.timers = []) :
    emitEvents ((handleStartGame s sid code).2 ++
        (drainRun 4 (handleStartGame s sid code).1).2) =
      [.gameStarting 3, .countdownUpdate 2, .countdownUpdate 1, .countdownUpdate 0,
       .phaseUpdate "drawing" 90] ∧
    (drainRun 4 (handleStartGame s sid code).1).1.timers = [] := by
  have h2 : ¬ room.players.length < 2 := by omega
  simp only [handleStartGame, hroom, hhost, ne_eq, not_true_eq_false, if_false, h2,
    if_true, ite_false, ite_true]
  simp [drainRun, tickTimer, ht, emitEvents]

/-- C1 (witness): the amended sequence on the concrete scenario. -/
theorem c1_countdown_sequence_witness :
    emitEvents ((handleStartGame sJoined "h" "ABCDEF").2 ++
        (drainRun 4 (handleStartGame sJoined "h" "ABCDEF").1).2) =
      [.gameStarting 3, .countdownUpdate 2, .countdownUpdate 1, .countdownUpdate 0,
       .phaseUpdate "drawing" 90] ∧
    (drainRun 4 (handleStartGame sJoined "h" "ABCDEF").1).1.timers = [] :=
  c1_countdown_sequence sJoined "h" "ABCDEF" roomAfterJoin rfl rfl (by decide) rfl

/-! ## C2 — directory / roster consistency -/

/-- C2 (counterexample): after the host of the two-player room
disconnects, the promoted player's roster entry has `isHost = true`
while their directory entry still has `isHost = false`, so the two
structures disagree. -/
theorem c2_counterexample :
    (c2State.players "q").map DirEntry.isHost = some false ∧
    (c2State.rooms "ABCDEF").map (fun r => r.players.map (fun p => (p.id, p.isHost)))
      = some [("q", true)] ∧
    (some false : Option Bool) ≠ some true := by
  decide

/-- C2 (amended): a host promotion on disconnect rewrites only the
Room roster (head of the filtered roster gets `isHost := true` and
becomes `host`); the promoted player's PlayerDirectory entry is left
exactly as it was, so directory and roster can disagree on `isHost`
after a promotion. -/
theorem c2_promotion_skips_directory (s : ServerState) (sid : String)
    (entry : DirEntry) (room : Room) (p : Player) (rest : List Player)
    (hp : s.players sid = some entry)
    (hr : s.rooms entry.roomCode = some room)
    (hhost : room.host = sid)
    (hfil : room.players.filter (fun q => q.id != sid) = p :: rest) :
    (handleDisconnect s sid).1.rooms entry.roomCode =
      some { room with
              players := ({ p with isHost := true }) :: rest,
              host := p.id } ∧
    (handleDisconnect s sid).1.players p.id = s.players p.id := by
  have hpid : p.id ≠ sid := by
    have hm : p ∈ room.players.filter (fun q => q.id != sid) := by
      rw [hfil]; exact List.mem_cons_self p rest
    simpa using (List.mem_filter.mp hm).2
  simp [handleDisconnect, hp, hr, hfil, hhost, hpid]

/-- C2 (witness): the amended statement on the concrete scenario. -/
theorem c2_promotion_skips_directory_witness :
    (handleDisconnect sJoined "h").1.rooms "ABCDEF" =
      some { roomAfterJoin with
              players := [{ id := "q", name := "Bob", isHost := true }],
              host := "q" } ∧
    (handleDisconnect sJoined "h").1.players "q" = sJoined.players "q" :=
  c2_promotion_skips_directory sJoined "h"
    { id := "h", name := "Alice", isHost := true, roomCode := "ABCDEF" }
    roomAfterJoin { id := "q", name := "Bob", isHost := false } [] rfl rfl rfl rfl

/-! ## C3 — playerJoined broadcast audience -/

/-- C3 (counterexample): in the concrete scenario the `playerJoined`
broadcast is delivered to `["h", "q"]`, which contains the joiner `q`
itself — the claim says the joiner is excluded. -/
theorem c3_counterexample :
    ((handleJoinRoom sCreate "q" "ABCDEF" "Bob").2.map Emit.recipients)
      = [["q"], ["h", "q"]] ∧
    ((handleJoinRoom sCreate "q" "ABCDEF" "Bob").2.map Emit.event)
      = [.roomJoined "ABCDEF" roomAfterJoin.players "q",
         .playerJoined { id := "q", name := "Bob", isHost := false }] ∧
    "q" ∈ ["h", "q"] := by
  decide

/-- C3 (amended): a successful `joinRoom` emits exactly the unicast
`roomJoined` (full roster and new player id, to the joiner only)
followed by the `playerJoined` broadcast, whose audience is every
previous channel member plus the joiner itself (`socket.join` runs
before the broadcast). -/
theorem c3_join_emits (s : ServerState) (sid code name : String) (room : Room)
    (hr : s.rooms code = some room) (hlen : room.players.length < 8) :
    (handleJoinRoom s sid code name).2 =
      [⟨[sid], .roomJoined code (room.players ++ [⟨sid, name, false⟩]) sid⟩,
       ⟨s.channels code ++ [sid], .playerJoined ⟨sid, name, false⟩⟩] := by
  have h8 : ¬ 8 ≤ room.players.length := by omega
  simp [handleJoinRoom, hr, h8]

/-- C3 (witness): the amended emission list on the concrete scenario. -/
theorem c3_join_emits_witness :
    (handleJoinRoom sCreate "q" "ABCDEF" "Bob").2 =
      [⟨["q"], .roomJoined "ABCDEF"
          (roomAfterCreate.players ++ [⟨"q", "Bob", false⟩]) "q"⟩,
       ⟨sCreate.channels "ABCDEF" ++ ["q"], .playerJoined ⟨"q", "Bob", false⟩⟩] :=
  c3_join_emits sCreate "q" "ABCDEF" "Bob" roomAfterCreate rfl (by decide)

/-! ## C4 — host promotion on disconnect -/

/-- C4: when the current host of the room referenced by its directory
entry disconnects and the filtered roster is non-empty, the room's
`host` becomes the id of the earliest-joined remaining player (the head
of the roster in join order), that player's `isHost` flag is set, the
rest of the roster is untouched (the promotion happens exactly once),
and the new host is a member of the roster. -/
theorem c4_host_promotion (s : ServerState) (sid : String)
    (entry : DirEntry) (room : Room) (p : Player) (rest : List Player)
    (hp : s.players sid = some entry)
    (hr : s.rooms entry.roomCode = some room)
    (hhost : room.host = sid)
    (hfil : room.players.filter (fun q => q.id != sid) = p :: rest) :
    (handleDisconnect s sid).1.rooms entry.roomCode =
      some { room with
              players := ({ p with isHost := true }) :: rest,
              host := p.id } ∧
    ({ p with isHost := true } : Player).isHost = true ∧
    p.id ∈ (({ p with isHost := true }) :: rest).map Player.id := by
  refine ⟨?_, rfl, by simp⟩
  simp [handleDisconnect, hp, hr, hfil, hhost]

/-- C4 (witness): the promotion on the concrete scenario. -/
theorem c4_host_promotion_witness :
    (handleDisconnect sJoined "h").1.rooms "ABCDEF" =
      some { roomAfterJoin with
              players := [{ id := "q", name := "Bob", isHost := true }],
              host := "q" } ∧
    ({ id := "q", name := "Bob", isHost := true } : Player).isHost = true ∧
    "q" ∈ ([{ id := "q", name := "Bob", isHost := true }] : List Player).map Player.id :=
  c4_host_promotion sJoined "h"
    { id := "h", name := "Alice", isHost := true, roomCode := "ABCDEF" }
    roomAfterJoin { id := "q", name := "Bob", isHost := false } [] rfl rfl rfl rfl

/-! ## C5 — joinRoom failure modes -/

/-- C5: `joinRoom` fails with the room-not-found error when the code
names no live room, fails with the room-full error exactly when the
roster size is at least 8 (and never emits it while the roster is below
8), and otherwise appends a non-host Player and replies with the new
roster and the new player's id. -/
theorem c5_joinRoom_result (s : ServerState) (sid code name : String) :
    (s.rooms code = none →
      handleJoinRoom s sid code name =
        (s, [⟨[sid], .errorMsg "Sala não encontrada!"⟩])) ∧
    (∀ room, s.rooms code = some room → 8 ≤ room.players.length →
      handleJoinRoom s sid code name =
        (s, [⟨[sid], .errorMsg "Sala cheia! Máximo 8 jogadores."⟩])) ∧
    (∀ room, s.rooms code = some room → room.players.length < 8 →
      (handleJoinRoom s sid code name).1.rooms code =
          some { room with players := room.players ++ [⟨sid, name, false⟩] } ∧
      (handleJoinRoom s sid code name).2.head? =
          some ⟨[sid], .roomJoined code (room.players ++ [⟨sid, name, false⟩]) sid⟩ ∧
      ∀ e ∈ (handleJoinRoom s sid code name).2,
        e.event ≠ .errorMsg "Sala cheia! Máximo 8 jogadores.") := by
  refine ⟨fun h => by simp [handleJoinRoom, h],
          fun room hr h8 => by simp [handleJoinRoom, hr, h8],
          fun room hr hlt => ?_⟩
  have h8 : ¬ 8 ≤ room.players.length := by omega
  simp [handleJoinRoom, hr, h8]

/-- C5 (witness): room-not-found on the empty registry, room-full on
the 8-player room (the join attempt after the roster reached 8), and a
successful append below the cap. -/
theorem c5_joinRoom_result_witness :
    (handleJoinRoom initState "q" "ABCDEF" "Bob" =
      (initState, [⟨["q"], .errorMsg "Sala não encontrada!"⟩])) ∧
    (handleJoinRoom s8 "p9" "ABCDEF" "p9" =
      (s8, [⟨["p9"], .errorMsg "Sala cheia! Máximo 8 jogadores."⟩])) ∧
    (handleJoinRoom sCreate "q" "ABCDEF" "Bob").1.rooms "ABCDEF" =
      some { roomAfterCreate with
              players := roomAfterCreate.players ++ [⟨"q", "Bob", false⟩] } :=
  ⟨(c5_joinRoom_result initState "q" "ABCDEF" "Bob").1 rfl,
   (c5_joinRoom_result s8 "p9" "ABCDEF" "p9").2.1 room8 rfl (by decide),
   ((c5_joinRoom_result sCreate "q" "ABCDEF" "Bob").2.2 roomAfterCreate rfl
      (by decide)).1⟩

/-! ## C6 — startGame guards -/

/-- C6: `startGame` on a nonexistent room, or by a requester that is
not the current host, returns the state unchanged and emits nothing;
on an existing room with fewer than 2 players it emits the error to
the requester only and leaves the state (hence `gameState`) unchanged. -/
theorem c6_startGame_guards (s : ServerState) (sid code : String) :
    (s.rooms code = none → handleStartGame s sid code = (s, [])) ∧
    (∀ room, s.rooms code = some room → room.host ≠ sid →
      handleStartGame s sid code = (s, [])) ∧
    (∀ room, s.rooms code = some room → room.host = sid →
      room.players.length < 2 →
      handleStartGame s sid code = (s, [⟨[sid], .errorMsg "Mínimo 2 jogadores!"⟩])) := by
  refine ⟨fun h => by simp [handleStartGame, h],
          fun room hr hh => by simp [handleStartGame, hr, hh],
          fun room hr hh hl => by simp [handleStartGame, hr, hh, hl]⟩

/-- C6 (witness): the three guard branches at concrete states. -/
theorem c6_startGame_guards_witness :
    handleStartGame initState "h" "ZZZZZZ" = (initState, []) ∧
    handleStartGame sJoined "q" "ABCDEF" = (sJoined, []) ∧
    handleStartGame sCreate "h" "ABCDEF" =
      (sCreate, [⟨["h"], .errorMsg "Mínimo 2 jogadores!"⟩]) :=
  ⟨(c6_startGame_guards initState "h" "ZZZZZZ").1 rfl,
   (c6_startGame_guards sJoined "q" "ABCDEF").2.1 roomAfterJoin rfl (by decide),
   (c6_startGame_guards sCreate "h" "ABCDEF").2.2 roomAfterCreate rfl rfl (by decide)⟩

/-! ## C9 — submission counting -/

/-- C9: a `submitDrawing` (resp. `submitSlogan`) by a session known to
the directory whose room exists appends one entry to the room's
`drawings` (resp. `slogans`) list and broadcasts a total equal to the
new length; a repeated submission by the same player appends again and
is counted again, so the total counts submissions, not distinct
submitters. -/
theorem c9_submission_counts (s : ServerState) (sid d1 d2 sl : String)
    (n1 n2 n3 : Nat) (entry : DirEntry) (room : Room)
    (hp : s.players sid = some entry)
    (hr : s.rooms entry.roomCode = some room) :
    ((handleSubmitDrawing s sid d1 n1).1.rooms entry.roomCode =
        some { room with drawings := room.drawings ++ [⟨sid, d1, n1⟩] } ∧
     emitEvents (handleSubmitDrawing s sid d1 n1).2 =
        [.drawingReceived entry.name (room.drawings.length + 1)]) ∧
    ((handleSubmitSlogan s sid sl n3).1.rooms entry.roomCode =
        some { room with slogans := room.slogans ++ [⟨sid, sl, n3⟩] } ∧
     emitEvents (handleSubmitSlogan s sid sl n3).2 =
        [.sloganReceived entry.name (room.slogans.length + 1)]) ∧
    emitEvents (handleSubmitDrawing (handleSubmitDrawing s sid d1 n1).1 sid d2 n2).2 =
        [.drawingReceived entry.name (room.drawings.length + 2)] := by
  refine ⟨⟨by simp [handleSubmitDrawing, hp, hr], by simp [handleSubmitDrawing, hp, hr, emitEvents]⟩,
          ⟨by simp [handleSubmitSlogan, hp, hr], by simp [handleSubmitSlogan, hp, hr, emitEvents]⟩,
          ?_⟩
  have hp1 : (handleSubmitDrawing s sid d1 n1).1.players sid = some entry := by
    simp [handleSubmitDrawing, hp, hr]
  have hr1 : (handleSubmitDrawing s sid d1 n1).1.rooms entry.roomCode =
      some { room with drawings := room.drawings ++ [⟨sid, d1, n1⟩] } := by
    simp [handleSubmitDrawing, hp, hr]
  simp [handleSubmitDrawing, hp, hr, hp1, hr1, emitEvents]

/-- C9 (witness): drawing, slogan and a repeated drawing in the
concrete two-player room. -/
theorem c9_submission_counts_witness :
    ((handleSubmitDrawing sJoined "q" "d1" 10).1.rooms "ABCDEF" =
        some { roomAfterJoin with drawings := roomAfterJoin.drawings ++ [⟨"q", "d1", 10⟩] } ∧
     emitEvents (handleSubmitDrawing sJoined "q" "d1" 10).2 =
        [.drawingReceived "Bob" (roomAfterJoin.drawings.length + 1)]) ∧
    ((handleSubmitSlogan sJoined "q" "s1" 12).1.rooms "ABCDEF" =
        some { roomAfterJoin with slogans := roomAfterJoin.slogans ++ [⟨"q", "s1", 12⟩] } ∧
     emitEvents (handleSubmitSlogan sJoined "q" "s1" 12).2 =
        [.sloganReceived "Bob" (roomAfterJoin.slogans.length + 1)]) ∧
    emitEvents (handleSubmitDrawing (handleSubmitDrawing sJoined "q" "d1" 10).1 "q" "d2" 11).2 =
        [.drawingReceived "Bob" (roomAfterJoin.drawings.length + 2)] :=
  c9_submission_counts sJoined "q" "d1" "d2" "s1" 10 11 12
    { id := "q", name := "Bob", isHost := false, roomCode := "ABCDEF" }
    roomAfterJoin rfl rfl

/-! ## C10 — createRoom/joinRoom never leave the old room -/

/-- C10: a session already present in room A's roster that issues
`createRoom` or `joinRoom` for a different room B is not removed from
room A: room A's aggregate (hence its roster, still holding the
session's Player entry) is unchanged, while the session's single
directory entry is overwritten to reference room B only. -/
theorem c10_create_join_frame (s : ServerState) (sid nameB codeA codeB : String)
    (roomA : Room) (pl : Player)
    (hA : s.rooms codeA = some roomA) (hmem : pl ∈ roomA.players)
    (hid : pl.id = sid) (hne : codeB ≠ codeA) :
    ((handleCreateRoom s sid nameB codeB).1.rooms codeA = some roomA ∧
     pl ∈ roomA.players ∧ sid ∈ roomA.players.map Player.id ∧
     (handleCreateRoom s sid nameB codeB).1.players sid =
        some { id := sid, name := nameB, isHost := true, roomCode := codeB }) ∧
    (∀ roomB, s.rooms codeB = some roomB → roomB.players.length < 8 →
      (handleJoinRoom s sid codeB nameB).1.rooms codeA = some roomA ∧
      (handleJoinRoom s sid codeB nameB).1.players sid =
        some { id := sid, name := nameB, isHost := false, roomCode := codeB }) := by
  have hAne : codeA ≠ codeB := fun h => hne h.symm
  refine ⟨⟨by simp [handleCreateRoom, hAne, hA], hmem,
           hid ▸ List.mem_map_of_mem Player.id hmem,
           by simp [handleCreateRoom]⟩,
          fun roomB hB hlen => ?_⟩
  have h8 : ¬ 8 ≤ roomB.players.length := by omega
  exact ⟨by simp [handleJoinRoom, hB, h8, hAne, hA],
         by simp [handleJoinRoom, hB, h8]⟩

/-- C10 (witness): `q`, a member of `ABCDEF`, creates `BBBBBB`
(overwriting the room `w` made) and separately joins `BBBBBB`; either
way `ABCDEF` still holds `q`'s roster entry and `q`'s directory entry
now references `BBBBBB`. -/
theorem c10_create_join_frame_witness :
    ((handleCreateRoom sTwoRooms "q" "Bob" "BBBBBB").1.rooms "ABCDEF" =
        some roomAfterJoin ∧
     ({ id := "q", name := "Bob", isHost := false } : Player) ∈ roomAfterJoin.players ∧
     "q" ∈ roomAfterJoin.players.map Player.id ∧
     (handleCreateRoom sTwoRooms "q" "Bob" "BBBBBB").1.players "q" =
        some { id := "q", name := "Bob", isHost := true, roomCode := "BBBBBB" }) ∧
    (∀ roomB, sTwoRooms.rooms "BBBBBB" = some roomB → roomB.players.length < 8 →
      (handleJoinRoom sTwoRooms "q" "BBBBBB" "Bob").1.rooms "ABCDEF" =
        some roomAfterJoin ∧
      (handleJoinRoom sTwoRooms "q" "BBBBBB" "Bob").1.players "q" =
        some { id := "q", name := "Bob", isHost := false, roomCode := "BBBBBB" }) :=
  c10_create_join_frame sTwoRooms "q" "Bob" "ABCDEF" "BBBBBB" roomAfterJoin
    { id := "q", name := "Bob", isHost := false } rfl (by decide) rfl (by decide)

/-! ## C7 — no zero-player room in the registry -/

/-- Well-formedness of the room registry: every stored room's `code`
field equals its map key and its roster is non-empty. -/
def RoomsWF (s : ServerState) : Prop :=
  ∀ k r, s.rooms k = some r → r.code = k ∧ r.players ≠ []

/-- Every event handler and timer firing preserves `RoomsWF`. -/
theorem roomsWF_step {s t : ServerState} (hw : RoomsWF s) (st : Step s t) :
    RoomsWF t := by
  cases st with
  | createRoom sid name code =>
      intro k r hk
      simp only [handleCreateRoom] at hk
      by_cases hkc : k = code
      · subst hkc
        rw [if_pos rfl] at hk
        injection hk with h
        subst h
        exact ⟨rfl, by simp⟩
      · rw [if_neg hkc] at hk
        exact hw k r hk
  | joinRoom sid code name =>
      rcases hr : s.rooms code with _ | room
      · intro k r hk
        simp only [handleJoinRoom, hr] at hk
        exact hw k r hk
      · by_cases h8 : 8 ≤ room.players.length
        · intro k r hk
          simp only [handleJoinRoom, hr, if_pos h8] at hk
          exact hw k r hk
        · intro k r hk
          simp only [handleJoinRoom, hr, if_neg h8] at hk
          by_cases hkc : k = code
          · subst hkc
            rw [if_pos rfl] at hk
            injection hk with h
            subst h
            exact ⟨(hw _ room hr).1, by simp⟩
          · rw [if_neg hkc] at hk
            exact hw k r hk
  | startGame sid code =>
      rcases hr : s.rooms code with _ | room
      · intro k r hk
        simp only [handleStartGame, hr] at hk
        exact hw k r hk
      · by_cases hh : room.host ≠ sid
        · intro k r hk
          simp only [handleStartGame, hr, if_pos hh] at hk
          exact hw k r hk
        · by_cases hl : room.players.length < 2
          · intro k r hk
            simp only [handleStartGame, hr, if_neg hh, if_pos hl] at hk
            exact hw k r hk
          · intro k r hk
            simp only [handleStartGame, hr, if_neg hh, if_neg hl] at hk
            by_cases hkc : k = code
            · subst hkc
              rw [if_pos rfl] at hk
              injection hk with h
              subst h
              exact ⟨(hw _ room hr).1, (hw _ room hr).2⟩
            · rw [if_neg hkc] at hk
              exact hw k r hk
  | submitDrawing sid payload now =>
      rcases hp : s.players sid with _ | entry
      · intro k r hk
        simp only [handleSubmitDrawing, hp] at hk
        exact hw k r hk
      · rcases hr : s.rooms entry.roomCode with _ | room
        · intro k r hk
          simp only [handleSubmitDrawing, hp, hr] at hk
          exact hw k r hk
        · intro k r hk
          simp only [handleSubmitDrawing, hp, hr] at hk
          by_cases hkc : k = entry.roomCode
          · subst hkc
            rw [if_pos rfl] at hk
            injection hk with h
            subst h
            exact ⟨(hw entry.roomCode room hr).1, (hw entry.roomCode room hr).2⟩
          · rw [if_neg hkc] at hk
            exact hw k r hk
  | submitSlogan sid payload now =>
      rcases hp : s.players sid with _ | entry
      · intro k r hk
        simp only [handleSubmitSlogan, hp] at hk
        exact hw k r hk
      · rcases hr : s.rooms entry.roomCode with _ | room
        · intro k r hk
          simp only [handleSubmitSlogan, hp, hr] at hk
          exact hw k r hk
        · intro k r hk
          simp only [handleSubmitSlogan, hp, hr] at hk
          by_cases hkc : k = entry.roomCode
          · subst hkc
            rw [if_pos rfl] at hk
            injection hk with h
            subst h
            exact ⟨(hw entry.roomCode room hr).1, (hw entry.roomCode room hr).2⟩
          · rw [if_neg hkc] at hk
            exact hw k r hk
  | disconnect sid =>
      rcases hp : s.players sid with _ | entry
      · intro k r hk
        simp only [handleDisconnect, hp] at hk
        exact hw k r hk
      · rcases hr : s.rooms entry.roomCode with _ | room
        · intro k r hk
          simp only [handleDisconnect, hp, hr] at hk
          exact hw k r hk
        · have hcode : room.code = entry.roomCode := (hw entry.roomCode room hr).1
          by_cases hh : room.host = sid
          · rcases hfil : room.players.filter (fun p => p.id != sid) with _ | ⟨p, rest⟩
            · intro k r hk
              simp only [handleDisconnect, hp, hr, hfil, if_pos hh, List.isEmpty_nil,
                if_true] at hk
              by_cases hk1 : k = room.code
              · rw [if_pos hk1] at hk
                cases hk
              · rw [if_neg hk1] at hk
                have hk2 : k ≠ entry.roomCode := fun h => hk1 (h.trans hcode.symm)
                rw [if_neg hk2] at hk
                exact hw k r hk
            · intro k r hk
              simp only [handleDisconnect, hp, hr, hfil, if_pos hh] at hk
              simp only [List.isEmpty_cons, Bool.false_eq_true, if_false] at hk
              by_cases hkc : k = entry.roomCode
              · subst hkc
                rw [if_pos rfl] at hk
                injection hk with h
                subst h
                exact ⟨hcode, by simp⟩
              · rw [if_neg hkc] at hk
                exact hw k r hk
          · rcases hfil : room.players.filter (fun p => p.id != sid) with _ | ⟨p, rest⟩
            · intro k r hk
              simp only [handleDisconnect, hp, hr, hfil, if_neg hh, List.isEmpty_nil,
                if_true] at hk
              by_cases hk1 : k = room.code
              · rw [if_pos hk1] at hk
                cases hk
              · rw [if_neg hk1] at hk
                have hk2 : k ≠ entry.roomCode := fun h => hk1 (h.trans hcode.symm)
                rw [if_neg hk2] at hk
                exact hw k r hk
            · intro k r hk
              simp only [handleDisconnect, hp, hr, hfil, if_neg hh] at hk
              simp only [List.isEmpty_cons, Bool.false_eq_true, if_false] at hk
              by_cases hkc : k = entry.roomCode
              · subst hkc
                rw [if_pos rfl] at hk
                injection hk with h
                subst h
                exact ⟨hcode, by simp⟩
              · rw [if_neg hkc] at hk
                exact hw k r hk
  | tick i =>
      rcases hg : s.timers.get? i with _ | t
      · intro k r hk
        simp only [tickTimer, hg] at hk
        exact hw k r hk
      · by_cases hc : (t.countdown - 1 : Int) ≤ 0
        · intro k r hk
          simp only [tickTimer, hg, if_pos hc] at hk
          exact hw k r hk
        · intro k r hk
          simp only [tickTimer, hg, if_neg hc] at hk
          exact hw k r hk

/-- `RoomsWF` holds in every reachable state. -/
theorem roomsWF_reachable {s : ServerState} (h : Reachable s) : RoomsWF s := by
  induction h with
  | refl => intro k r hk; simp [initState] at hk
  | tail _ st ih => exact roomsWF_step ih st

/-- C7: in every reachable state no zero-player room is present in the
registry; `joinRoom` on a code bound to no live room fails with the
room-not-found error and changes nothing; and a disconnect that removes
the last remaining player of the room its directory entry references
deletes that room from the registry. -/
theorem c7_no_empty_rooms (s : ServerState) (hs : Reachable s) :
    (∀ k r, s.rooms k = some r → r.players ≠ []) ∧
    (∀ sid code name, s.rooms code = none →
      handleJoinRoom s sid code name =
        (s, [⟨[sid], .errorMsg "Sala não encontrada!"⟩])) ∧
    (∀ sid entry room, s.players sid = some entry →
      s.rooms entry.roomCode = some room →
      room.players.filter (fun p => p.id != sid) = [] →
      (handleDisconnect s sid).1.rooms entry.roomCode = none) := by
  have hw := roomsWF_reachable hs
  refine ⟨fun k r hk => (hw k r hk).2,
          fun sid code name h => by simp [handleJoinRoom, h],
          fun sid entry room hp hr hfil => ?_⟩
  have hcode : room.code = entry.roomCode := (hw entry.roomCode room hr).1
  by_cases hh : room.host = sid
  · simp [handleDisconnect, hp, hr, hfil, hh, hcode]
  · simp [handleDisconnect, hp, hr, hfil, hh, hcode]

/-- C7 (witness): instantiated on the reachable one- and two-player
scenario states. -/
theorem c7_no_empty_rooms_witness :
    roomAfterJoin.players ≠ [] ∧
    handleJoinRoom sJoined "x" "QQQQQQ" "Zed" =
      (sJoined, [⟨["x"], .errorMsg "Sala não encontrada!"⟩]) ∧
    (handleDisconnect sCreate "h").1.rooms "ABCDEF" = none := by
  have h2 : Reachable sCreate :=
    Relation.ReflTransGen.tail Relation.ReflTransGen.refl
      (Step.createRoom initState "h" "Alice" "ABCDEF")
  have h1 : Reachable sJoined :=
    Relation.ReflTransGen.tail h2 (Step.joinRoom sCreate "q" "ABCDEF" "Bob")
  exact ⟨(c7_no_empty_rooms sJoined h1).1 "ABCDEF" roomAfterJoin rfl,
         (c7_no_empty_rooms sJoined h1).2.1 "x" "QQQQQQ" "Zed" rfl,
         (c7_no_empty_rooms sCreate h2).2.2 "h"
           { id := "h", name := "Alice", isHost := true, roomCode := "ABCDEF" }
           roomAfterCreate rfl rfl rfl⟩

/-! ## C8 — pending countdown after room destruction -/

/-- C8: in the scenario create → join → startGame → both players
disconnect, the room is gone from the registry and its directory
entries are gone, yet the countdown interval armed by `startGame` is
still present (`disconnect` never touches the timers), and its
subsequent firings still emit the full `countdownUpdate 2, 1, 0` and
`phaseUpdate{drawing, 90}` addressed at the destroyed room's (now
empty) channel — the timer is not cancelled. -/
theorem c8_timer_fires_after_destruction :
    sDestroyed.rooms "ABCDEF" = none ∧
    sDestroyed.players "h" = none ∧
    sDestroyed.players "q" = none ∧
    sDestroyed.timers = [⟨"ABCDEF", 3⟩] ∧
    emitEvents (drainRun 5 sDestroyed).2 =
      [.countdownUpdate 2, .countdownUpdate 1, .countdownUpdate 0,
       .phaseUpdate "drawing" 90] ∧
    (tickTimer sDestroyed 0).2.map Emit.recipients = [[]] := by
  decide
